import Mathlib

/-!
Verification development for the WeatherScripts repository.

The repository has two pipeline scripts:
* `FetchOneWeekForecast.py` — the forecast variant: paginated fetch
  (`fetch_hourly`), row normalization (`row_from_hour`,
  `_parse_display_datetime`), snapshot persistence.
* `FetchPrevDayData.py` — the history variant: fetch with retry,
  row normalization (`flatten`, `mm_from_qpf`, `wind_ms`), and the
  incremental merge/deduplication step inside `main`.

Python JSON values are embedded as the inductive `Json` below
(`Json.null` doubles as Python `None`).  Python numbers are modelled as
exact rationals `ℚ`; `round(x, 2)` is modelled as round-half-to-even at
two decimals (`round2`), which agrees with Python on all inputs whose
binary floating-point representation is exact enough not to perturb the
tie, and in particular on every value appearing in the claims.
Operations that can raise in Python (attribute errors on non-dict
values, failed `float(...)` conversions, out-of-range `datetime`
construction, unparsable timestamps) are modelled in `Except String`.
External effects — the timezone database behind `ZoneInfo`, the
`json.loads` parser, and the timestamp-to-local conversion in
`to_local_iso` — are taken as explicit function parameters.
-/

mutual
/-- A Python/JSON value.  `null` doubles as Python `None`.  JSON arrays
are omitted: no accessed field of an hourly record is ever a list, and
every wrong-shape case needed below is expressible with the remaining
constructors. -/
inductive Json where
  | null : Json
  | bool : Bool → Json
  | num : ℚ → Json
  | str : String → Json
  | obj : JsonObj → Json
deriving DecidableEq
/-- The key/value entries of a JSON object, in insertion order. -/
inductive JsonObj where
  | nil : JsonObj
  | cons : String → Json → JsonObj → JsonObj
deriving DecidableEq
end

/-- First entry for a key, if any (Python dict keys are unique, so
"first" is exact for every value a Python program can build). -/
def JsonObj.find? : JsonObj → String → Option Json
  | .nil, _ => none
  | .cons k v rest, k0 => if k = k0 then some v else rest.find? k0

def JsonObj.isNil : JsonObj → Bool
  | .nil => true
  | .cons _ _ _ => false

/-- Build an object from a list of entries. -/
def jsonObjOf : List (String × Json) → JsonObj
  | [] => .nil
  | (k, v) :: rest => .cons k v (jsonObjOf rest)

namespace Json

/-- Python truthiness of a JSON value (`bool(x)`): `None`, `False`, `0`,
`""`, `{}` are falsy, everything else is truthy. -/
def truthy : Json → Bool
  | .null => false
  | .bool b => b
  | .num q => q != 0
  | .str s => s != ""
  | .obj l => !l.isNil

def isObj : Json → Bool
  | .obj _ => true
  | _ => false

/-- Raw key lookup in an object: `some v` when the key is present,
`none` when absent or when the value is not an object at all. -/
def lookup (j : Json) (k : String) : Option Json :=
  match j with
  | .obj kvs => kvs.find? k
  | _ => none

end Json

/-- Python `d.get(k)`: raises `AttributeError` when `d` is not a dict;
otherwise the stored value (which may itself be `None`/null) or `None`
when the key is absent. -/
def pyGet (j : Json) (k : String) : Except String Json :=
  match j with
  | .obj kvs => .ok ((kvs.find? k).getD .null)
  | _ => .error "AttributeError: .get on non-dict"

/-- Python `d.get(k, d0)`: like `pyGet` but with an explicit default for
an absent key.  A key present with value `None` still yields `None`. -/
def pyGetD (j : Json) (k : String) (d0 : Json) : Except String Json :=
  match j with
  | .obj kvs => .ok ((kvs.find? k).getD d0)
  | _ => .error "AttributeError: .get on non-dict"

/-- Python `x or y` specialised to the `x or {}` idiom. -/
def orEmpty (j : Json) : Json :=
  if j.truthy then j else .obj .nil

/-- Python `float(x)` restricted to the value shapes exercised by the
scripts: numbers pass through exactly, booleans become 0/1, everything
else is treated as a conversion failure.  (Python additionally parses
numeric strings; no claim and no counterexample below feeds a numeric
string into a `float(...)` call, so that case is modelled as an error.) -/
def pyFloat : Json → Except String ℚ
  | .num q => .ok q
  | .bool b => .ok (if b then 1 else 0)
  | _ => .error "TypeError: float()"

/-- Round a rational to the nearest integer, ties to even — the rounding
Python's builtin `round` uses. -/
def roundHalfEven (q : ℚ) : ℤ :=
  let f := ⌊q⌋
  let frac := q - (f : ℚ)
  if frac < 1/2 then f
  else if 1/2 < frac then f + 1
  else if f % 2 = 0 then f else f + 1

/-- Python `round(x, 2)`. -/
def round2 (q : ℚ) : ℚ := (roundHalfEven (q * 100) : ℚ) / 100

/-- Embedding of `FetchPrevDayData.mm_from_qpf`: precipitation quantity in mm.
Falsy `qpf` or absent quantity give `None`; otherwise the quantity is
converted (×25.4 for `INCHES`, unchanged otherwise) and rounded to two
decimals. -/
def mm_from_qpf (qpf : Json) : Except String Json := do
  if !qpf.truthy then return .null
  let qty ← pyGet qpf "quantity"
  let unit ← pyGet qpf "unit"
  if qty = .null then return .null
  let v ← pyFloat qty
  return .num (round2 (v * (if unit = .str "INCHES" then 25.4 else 1)))

/-- Embedding of `FetchPrevDayData.wind_ms`: wind speed in m/s.  Falsy wind or speed
gives `None`; a present value is multiplied by 0.44704 for
`MILES_PER_HOUR` and divided by 3.6 for every other unit, then rounded
to two decimals. -/
def wind_ms (wind : Json) : Except String Json := do
  if !wind.truthy then return .null
  let speed ← pyGet wind "speed"
  if !speed.truthy then return .null
  let val ← pyGet speed "value"
  let unit ← pyGet speed "unit"
  if val = .null then return .null
  let v ← pyFloat val
  return .num (round2 (if unit = .str "MILES_PER_HOUR" then v * 0.44704 else v / 3.6))

/-- Python `s.replace("Z", "+00:00")` as used in `to_local_iso`
(single-character pattern, so a character-wise expansion is exact). -/
def replaceZ (s : String) : String :=
  String.mk ((s.toList.map (fun c => if c = 'Z' then "+00:00".toList else [c])).flatten)

/-- Embedding of `FetchPrevDayData.to_local_iso`: `fromisoformat` on the
`Z`-normalised timestamp followed by the `ZoneInfo` conversion and
`isoformat`.  The parse/convert/format composite depends on the host
timezone database, so it is passed in as `tloc`; it fails (raises
`ValueError`) exactly where `tloc` does. -/
def to_local_iso (tloc : String → Except String String) (ts : String) : Except String String :=
  tloc (replaceZ ts)

/-- The `local_time` field of `flatten`:
`to_local_iso(start_utc) if start_utc else ""`.  A truthy non-string
start raises inside `to_local_iso` at `.replace`. -/
def localTimeOf (tloc : String → Except String String) (start_utc : Json) :
    Except String Json :=
  if start_utc.truthy then
    match start_utc with
    | .str s => do let l ← to_local_iso tloc s; pure (Json.str l)
    | _ => Except.error "AttributeError: .replace on non-str"
  else pure (Json.str "")

/-- Embedding of `FetchPrevDayData.flatten`: one raw history hour to a flat row dict,
in the source's key order.  `tloc` stands for the external
parse-convert-format composite inside `to_local_iso`. -/
def flatten (tloc : String → Except String String) (city : String) (h : Json) :
    Except String (List (String × Json)) := do
  let interval ← pyGetD h "interval" (.obj .nil)
  let start_utc ← pyGet interval "startTime"
  let end_utc ← pyGet interval "endTime"
  let precip := orEmpty (← pyGet h "precipitation")
  let wind := orEmpty (← pyGet h "wind")
  let temp := orEmpty (← pyGet h "temperature")
  let cond := orEmpty (← pyGet h "weatherCondition")
  let cond_desc ← pyGet (orEmpty (← pyGet cond "description")) "text"
  let local_time ← localTimeOf tloc start_utc
  let temp_c ← pyGet temp "degrees"
  let rh ← pyGet h "relativeHumidity"
  let cc ← pyGet h "cloudCover"
  let precip_mm ← mm_from_qpf (← pyGet precip "qpf")
  let prob ← pyGet (orEmpty (← pyGet precip "probability")) "percent"
  let ptype ← pyGet (orEmpty (← pyGet precip "probability")) "type"
  let wspd ← wind_ms wind
  let wdir ← pyGet (orEmpty (← pyGet wind "direction")) "degrees"
  let dayt ← pyGet h "isDaytime"
  let ctype ← pyGet cond "type"
  return [("city", .str city), ("interval_start_utc", start_utc),
    ("interval_end_utc", end_utc), ("local_time", local_time),
    ("temperature_c", temp_c), ("relative_humidity_pct", rh),
    ("cloud_cover_pct", cc), ("precip_mm_per_hr", precip_mm),
    ("precip_probability_pct", prob), ("precip_type", ptype),
    ("wind_speed_m_s", wspd), ("wind_dir_deg", wdir),
    ("is_daytime", dayt), ("condition_type", ctype),
    ("condition_text", cond_desc)]

/-- A row as the store sees it: a Python dict from column name to value
(`csv.DictReader` rows have string values; `flatten` rows have
arbitrary ones). -/
abbrev Drow := List (String × Json)

/-- Python `r.get(k, d)` on a row dict. -/
def dget (r : Drow) (k : String) (d : Json) : Json :=
  ((r.find? (fun p => p.1 == k)).map (fun p => p.2)).getD d

/-- The dedup key from `FetchPrevDayData.main`:
`(r.get("city", ""), r.get("interval_start_utc", ""))`. -/
def rowKey (r : Drow) : Json × Json :=
  (dget r "city" (.str ""), dget r "interval_start_utc" (.str ""))

/-- Definition `cols` from `FetchPrevDayData.main`: the stable output column
order. -/
def cols : List String :=
  ["city", "interval_start_utc", "interval_end_utc", "local_time",
   "temperature_c", "relative_humidity_pct", "cloud_cover_pct",
   "precip_mm_per_hr", "precip_probability_pct", "precip_type",
   "wind_speed_m_s", "wind_dir_deg", "is_daytime", "condition_type",
   "condition_text"]

/-- Projection of one row onto the canonical column order:
`{c: r.get(c) for c in cols}`. -/
def projRow (r : Drow) : Drow := cols.map (fun c => (c, dget r c .null))

/-- Steps 2–4 of `FetchPrevDayData.main`: build the seen-key set from
the existing rows, keep only new rows whose key is unseen, return
`none` (no write) when nothing is appended, and otherwise the full
table to be rewritten, every row projected onto `cols`. -/
def mergeStep (existing new_rows : List Drow) : Option (List Drow) :=
  let seen := existing.map rowKey
  let appended := new_rows.filter (fun r => !(decide (rowKey r ∈ seen)))
  if appended.isEmpty then none
  else
    let merged := if existing.isEmpty then new_rows else existing ++ appended
    some (merged.map projRow)

/-- What one cell round-trips to through `csv.DictWriter` then
`csv.DictReader`: `None` becomes the empty cell and strings are written
verbatim (ISO timestamps and city names contain no separators or
quotes).  Booleans print as Python does.  A numeric or nested cell is
given a stand-in rendering: no key column of a reachable row is ever
numeric or nested, so these branches are never load-bearing. -/
def csvCell : Json → String
  | .null => ""
  | .str s => s
  | .bool b => if b then "True" else "False"
  | .num q => toString q.num
  | .obj _ => "object"

/-- One row as read back by `csv.DictReader` after `write_all`: every
cell a string. -/
def csvRow (r : Drow) : Drow := r.map (fun p => (p.1, Json.str (csvCell p.2)))

/-- The store contents after one pipeline run over fetched rows
`new_rows`: unchanged when `mergeStep` writes nothing, and otherwise
the written table as the next run will read it back from the CSV file. -/
def runOnce (store new_rows : List Drow) : List Drow :=
  match mergeStep store new_rows with
  | none => store
  | some final => final.map csvRow

/-- Default location map `_default_locations` in FetchPrevDayData: Tbilisi only. -/
def default_locations : List (String × ℚ × ℚ) :=
  [("tbilisi", (41.795923, 44.806403))]

/-- The module-level `LOCATIONS` computation of FetchPrevDayData
(lines 31–39): an absent or empty `LOCATIONS_JSON` selects the default
map; otherwise `json.loads` — external, passed in as `parse`, typed as
producing a location map when it succeeds — is attempted and any
exception silently falls back to the default map. -/
def LOCATIONS (parse : String → Except String (List (String × ℚ × ℚ)))
    (env : Option String) : List (String × ℚ × ℚ) :=
  match env with
  | none => default_locations
  | some s =>
    if s = "" then default_locations
    else
      match parse s with
      | .ok m => m
      | .error _ => default_locations

/-- Helper `g` inside `FetchOneWeekForecast.row_from_hour`: defensive
path lookup.  Walking stops with the default as soon as the current
value is not a dict, and a final `None` is also replaced by the
default. -/
def g (x : Json) (keys : List String) (d0 : Json) : Json :=
  match keys with
  | [] => if x = .null then d0 else x
  | k :: ks =>
    match x with
    | .obj kvs => g ((kvs.find? k).getD .null) ks d0
    | _ => d0

/-- Python `a or b`. -/
def pyOr (a b : Json) : Json := if a.truthy then a else b

/-- A naive local datetime, as built by `dt.datetime(y, m, d, hh, mm, ss)`. -/
structure Dt6 where
  year : Int
  month : Int
  day : Int
  hour : Int
  minute : Int
  second : Int
deriving DecidableEq

/-- Gregorian leap year, as `datetime` uses it. -/
def isLeap (y : Int) : Bool := (y % 4 = 0 && y % 100 != 0) || y % 400 = 0

/-- Days in a month (only consulted for `1 ≤ m ≤ 12`). -/
def daysInMonth (y m : Int) : Int :=
  if m = 1 ∨ m = 3 ∨ m = 5 ∨ m = 7 ∨ m = 8 ∨ m = 10 ∨ m = 12 then 31
  else if m = 4 ∨ m = 6 ∨ m = 9 ∨ m = 11 then 30
  else if isLeap y then 29 else 28

/-- An argument passed to the `dt.datetime` constructor: must be an
integer (Python bools count as integers); anything else raises. -/
def pyIntArg : Json → Except String Int
  | .num q => if q.den = 1 then .ok q.num else .error "TypeError: integer argument expected"
  | .bool b => .ok (if b then 1 else 0)
  | _ => .error "TypeError: integer argument expected"

/-- Timezone information attached to a constructed datetime: either a
fixed offset in seconds (`dt.timezone(dt.timedelta(seconds=sec))`) or a
named zone from the external database, represented by its
local-datetime-to-UTC-offset-in-seconds function. -/
inductive Tzinfo where
  | fixed : ℚ → Tzinfo
  | named : (Dt6 → ℚ) → Tzinfo

/-- Python `s.rstrip("s")`. -/
def rstripS (s : String) : String :=
  String.mk ((s.toList.reverse.dropWhile (fun c => c = 's')).reverse)

/-- Numeric value of a digit character. -/
def digitVal (c : Char) : Option Nat :=
  if c.isDigit then some (c.toNat - 48) else none

/-- Interpret a digit string as a natural number (`some 0` on the empty
string; the callers rule the all-empty case out separately). -/
def digitsToNat? (cs : List Char) : Option Nat :=
  cs.foldl
    (fun acc c =>
      match acc, digitVal c with
      | some a, some d => some (a * 10 + d)
      | _, _ => none)
    (some 0)

/-- Plain decimal literals accepted by Python's `float(...)`:
an optional sign, digits, an optional fractional part (`"1"`, `"-2.5"`,
`".5"`, `"5."`).  The exotic inputs `float` additionally accepts
(whitespace, exponents, `inf`, `nan`, underscores) never arise from the
provider's `utcOffset` strings and are modelled as parse failures. -/
def parseDecimal (s : String) : Option ℚ :=
  let cs := s.toList
  let sgn : ℚ × List Char :=
    match cs with
    | '-' :: r => (-1, r)
    | '+' :: r => (1, r)
    | _ => (1, cs)
  match sgn.2.splitOn '.' with
  | [ip] =>
    if ip.isEmpty then none
    else (digitsToNat? ip).map (fun n => sgn.1 * (n : ℚ))
  | [ip, fp] =>
    if ip.isEmpty && fp.isEmpty then none
    else
      match digitsToNat? ip, digitsToNat? fp with
      | some a, some b => some (sgn.1 * ((a : ℚ) + (b : ℚ) / (10 : ℚ) ^ fp.length))
      | _, _ => none
  | _ => none

/-- Seconds parsed from a `utcOffset` value, modelling
`float(str(utc_off).rstrip("s"))`: a Python number round-trips through
`str` exactly; a string is parsed as a decimal after stripping trailing
`s` characters; `str()` of any other value never parses as a float. -/
def utcOffSeconds (j : Json) : Option ℚ :=
  match j with
  | .num q => some q
  | .str s => parseDecimal (rstripS s)
  | _ => none

/-- Lines 126–133 of `FetchOneWeekForecast._parse_display_datetime`:
a truthy `utcOffset` is parsed to seconds inside a `try`; on success a
fixed-offset tzinfo is built (raising — and being swallowed — when the
offset is not strictly within ±24h) and the offset in minutes is the
banker's rounding of `sec / 60`. -/
def utcOffsetBlock (utc_off : Json) : Option Tzinfo × Option Int :=
  if !utc_off.truthy then (none, none)
  else
    match utcOffSeconds utc_off with
    | none => (none, none)
    | some sec =>
      if sec ≤ -86400 ∨ 86400 ≤ sec then (none, none)
      else (some (.fixed sec), some (roundHalfEven (sec / 60)))

/-- Lines 135–140 of `_parse_display_datetime`: a truthy timezone id
replaces the tzinfo when the database (`ZoneInfo`) knows it; a lookup
failure or a non-string id raises inside the `try` and is discarded. -/
def tzNameBlock (zdb : String → Option (Dt6 → ℚ)) (tzid : Json)
    (t0 : Option Tzinfo) : Option Tzinfo :=
  if tzid.truthy then
    match tzid with
    | .str s =>
      match zdb s with
      | some f => some (.named f)
      | none => t0
    | _ => t0
  else t0

def digitChar (n : Int) : Char := Char.ofNat (48 + n.toNat)

/-- Zero-padded two-digit rendering (arguments are in `0..99`). -/
def pad2 (n : Int) : String := String.mk [digitChar (n / 10), digitChar (n % 10)]

/-- Zero-padded four-digit rendering (arguments are in `0..9999`). -/
def pad4 (n : Int) : String :=
  String.mk [digitChar (n / 1000), digitChar (n / 100 % 10), digitChar (n / 10 % 10),
    digitChar (n % 10)]

/-- The `±HH:MM[:SS]` utcoffset suffix `datetime.isoformat` prints for
an aware datetime (a sub-second fractional part, which no reachable
input produces, is dropped). -/
def formatOffset (sec : ℚ) : String :=
  let t : Int := ⌊|sec|⌋
  (if sec < 0 then "-" else "+") ++ pad2 (t / 3600) ++ ":" ++ pad2 (t % 3600 / 60) ++
    (if t % 60 = 0 then "" else ":" ++ pad2 (t % 60))

/-- `local.isoformat()`: the naive `YYYY-MM-DDTHH:MM:SS` rendering
(microseconds are zero, so seconds precision), plus the offset suffix
when a tzinfo is attached. -/
def isoDt6 (t : Dt6) (tz : Option Tzinfo) : String :=
  pad4 t.year ++ "-" ++ pad2 t.month ++ "-" ++ pad2 t.day ++ "T" ++
    pad2 t.hour ++ ":" ++ pad2 t.minute ++ ":" ++ pad2 t.second ++
    (match tz with
     | none => ""
     | some (.fixed sec) => formatOffset sec
     | some (.named f) => formatOffset (f t))

/-- Embedding of `FetchOneWeekForecast._parse_display_datetime`.
`zdb` is the external timezone database behind `ZoneInfo`, giving for a
known zone name its UTC-offset-in-seconds function.  Returns the pair
`(local isoformat string or None, offset in minutes or None)`. -/
def parse_display_datetime (zdb : String → Option (Dt6 → ℚ)) (o : Json) :
    Except String (Option String × Option Int) := do
  if !o.truthy then return (none, none)
  let y ← pyGet o "year"
  let m ← pyGet o "month"
  let d ← pyGet o "day"
  let hh ← pyGetD o "hours" (.num 0)
  let mm ← pyGetD o "minutes" (.num 0)
  let ss ← pyGetD o "seconds" (.num 0)
  let tom := utcOffsetBlock (← pyGet o "utcOffset")
  let tzid ← pyGet (orEmpty (← pyGet o "timeZone")) "id"
  let tzinfo := tzNameBlock zdb tzid tom.1
  if y = .null ∨ m = .null ∨ d = .null ∨ hh = .null ∨ mm = .null then
    return (none, tom.2)
  let yi ← pyIntArg y
  let mi ← pyIntArg m
  let di ← pyIntArg d
  let hi ← pyIntArg hh
  let mini ← pyIntArg mm
  let si ← pyIntArg (if ss.truthy then ss else .num 0)
  if !(1 ≤ yi ∧ yi ≤ 9999 ∧ 1 ≤ mi ∧ mi ≤ 12 ∧ 1 ≤ di ∧ di ≤ daysInMonth yi mi ∧
      0 ≤ hi ∧ hi ≤ 23 ∧ 0 ≤ mini ∧ mini ≤ 59 ∧ 0 ≤ si ∧ si ≤ 59) then
    Except.error "ValueError: datetime"
  else
    let dt6 : Dt6 := ⟨yi, mi, di, hi, mini, si⟩
    let offset_min : Option Int :=
      match tom.2, tzinfo with
      | some o1, _ => some o1
      | none, some (.fixed sec) => some ⌊sec / 60⌋
      | none, some (.named f) => some ⌊f dt6 / 60⌋
      | none, none => none
    return (some (isoDt6 dt6 tzinfo), offset_min)

/-- The wind-speed block of `row_from_hour` (lines 159–168): a missing
value stays `None`; a present value is divided by 3.6 for
`KILOMETERS_PER_HOUR`, multiplied by 0.44704 for `MILES_PER_HOUR`, and
passed through unchanged (whatever its type) for every other unit. -/
def forecastWindMs (h : Json) : Except String Json :=
  let wind_val := g h ["wind", "speed", "value"] .null
  let wind_unit := g h ["wind", "speed", "unit"] .null
  if wind_val = .null then .ok .null
  else if wind_unit = .str "KILOMETERS_PER_HOUR" then do
    let v ← pyFloat wind_val
    pure (.num (v / 3.6))
  else if wind_unit = .str "MILES_PER_HOUR" then do
    let v ← pyFloat wind_val
    pure (.num (v * 0.44704))
  else .ok wind_val

/-- The precipitation block of `row_from_hour` (lines 170–175): a
missing quantity becomes the canonical `0.0`; a present quantity is
multiplied by 25.4 for `INCHES` and passed through unchanged for every
other unit. -/
def forecastPrecipMm (h : Json) : Except String Json :=
  let qpf_qty := g h ["precipitation", "qpf", "quantity"] .null
  let qpf_unit := g h ["precipitation", "qpf", "unit"] .null
  if qpf_qty = .null then .ok (.num 0)
  else if qpf_unit = .str "INCHES" then do
    let v ← pyFloat qpf_qty
    pure (.num (v * 25.4))
  else .ok qpf_qty

/-- Embedding of `FetchOneWeekForecast.row_from_hour`: one raw forecast
hour to a flat row dict, in the source's key order (the wind and
precipitation blocks are split out above). -/
def row_from_hour (zdb : String → Option (Dt6 → ℚ)) (h : Json) :
    Except String (List (String × Json)) := do
  let ddt ← pyGet h "displayDateTime"
  let dio ← parse_display_datetime zdb ddt
  let wms ← forecastWindMs h
  let precip_mm ← forecastPrecipMm h
  return [("interval_start_utc", g h ["interval", "startTime"] .null),
    ("display_local", match dio.1 with | none => Json.null | some s => Json.str s),
    ("utc_offset_min", match dio.2 with | none => Json.null | some i => Json.num i),
    ("temp_c", g h ["temperature", "value"] .null),
    ("feels_like_c", g h ["feelsLikeTemperature", "value"] .null),
    ("rel_humidity_pct", g h ["relativeHumidity"] .null),
    ("wind_speed_ms", wms),
    ("wind_dir_deg", g h ["wind", "direction", "degrees"] .null),
    ("precip_mm", precip_mm),
    ("precip_prob_pct", g h ["precipitation", "probability", "percent"] (.num 0)),
    ("precip_type", g h ["precipitation", "probability", "type"] .null),
    ("condition", pyOr (g h ["weatherCondition", "description", "text"] .null)
      (g h ["weatherCondition", "type"] .null))]

/-- One provider response page in the pagination protocol: the
`forecastHours` chunk and whether a `nextPageToken` was present. -/
abbrev Page := List Json × Bool

/-- The accumulation loop of `FetchOneWeekForecast.fetch_hourly`.  The
provider's successive responses form `pages`; a request past the end of
the list yields an empty chunk without a token, on which the loop stops
anyway.  After extending the accumulator the loop breaks when no token
came back or the chunk was empty, then when the accumulated count has
reached the target. -/
def fetchHourlyAux (hours : Nat) : List Page → List Json → List Json
  | [], acc => acc
  | (chunk, tok) :: rest, acc =>
    let acc2 := acc ++ chunk
    if !tok || chunk.isEmpty then acc2
    else if hours ≤ acc2.length then acc2
    else fetchHourlyAux hours rest acc2

/-- Sort key `start_utc` inside `fetch_hourly`:
`(h.get("interval", {}) or {}).get("startTime", "")`. -/
def start_utc (h : Json) : Except String Json := do
  let interval ← pyGetD h "interval" (.obj .nil)
  pyGetD (orEmpty interval) "startTime" (.str "")

/-- The sort key as the string `list.sort` compares.  A non-string key
would raise a `TypeError` when compared against the string keys of the
other records, so it is modelled as an error upfront. -/
def startKey (h : Json) : Except String String := do
  match ← start_utc h with
  | .str s => pure s
  | _ => Except.error "TypeError: comparison"

/-- Lexicographic comparison on code points — how Python compares the
ISO-8601 key strings. -/
def charsLe : List Char → List Char → Bool
  | [], _ => true
  | _ :: _, [] => false
  | a :: as, b :: bs =>
    if a.toNat < b.toNat then true
    else if b.toNat < a.toNat then false
    else charsLe as bs

def strLe (a b : String) : Bool := charsLe a.toList b.toList

/-- Embedding of `FetchOneWeekForecast.fetch_hourly` over an abstract
provider: accumulate pages, sort the records by their interval start
string (a stable sort, like Python's), truncate to the target count. -/
def fetch_hourly (hours : Nat) (pages : List Page) : Except String (List Json) := do
  let all_hours := fetchHourlyAux hours pages []
  let keyed ← all_hours.mapM (fun h => do let k ← startKey h; pure (k, h))
  let sorted := keyed.mergeSort (fun a b => strLe a.1 b.1)
  return (sorted.map (fun p => p.2)).take hours

/-- Witness timezone database: no zone names known. -/
def zdbEmpty : String → Option (Dt6 → ℚ) := fun _ => none

/-- Witness local-time converter: identity conversion, always succeeds. -/
def tlocId : String → Except String String := fun s => .ok s

/-- Witness record: an hourly record with every field absent. -/
def hEmpty : Json := Json.obj .nil

/-- Witness row: `row_from_hour` of `hEmpty`. -/
def rowEmpty : List (String × Json) :=
  [("interval_start_utc", .null), ("display_local", .null), ("utc_offset_min", .null),
   ("temp_c", .null), ("feels_like_c", .null), ("rel_humidity_pct", .null),
   ("wind_speed_ms", .null), ("wind_dir_deg", .null), ("precip_mm", .num 0),
   ("precip_prob_pct", .num 0), ("precip_type", .null), ("condition", .null)]

/-- Witness row: `flatten` of `hEmpty` for city tbilisi. -/
def histRowEmpty : List (String × Json) :=
  [("city", .str "tbilisi"), ("interval_start_utc", .null), ("interval_end_utc", .null),
   ("local_time", .str ""), ("temperature_c", .null), ("relative_humidity_pct", .null),
   ("cloud_cover_pct", .null), ("precip_mm_per_hr", .null), ("precip_probability_pct", .null),
   ("precip_type", .null), ("wind_speed_m_s", .null), ("wind_dir_deg", .null),
   ("is_daytime", .null), ("condition_type", .null), ("condition_text", .null)]

/-- Witness record: wind 36 km/h. -/
def c3h : Json := Json.obj (jsonObjOf [("wind", Json.obj (jsonObjOf [("speed",
  Json.obj (jsonObjOf [("value", Json.num 36), ("unit", Json.str "KILOMETERS_PER_HOUR")]))]))])

/-- Witness row: `row_from_hour` of `c3h`. -/
def c3row : List (String × Json) :=
  [("interval_start_utc", .null), ("display_local", .null), ("utc_offset_min", .null),
   ("temp_c", .null), ("feels_like_c", .null), ("rel_humidity_pct", .null),
   ("wind_speed_ms", .num (36 / 3.6)), ("wind_dir_deg", .null), ("precip_mm", .num 0),
   ("precip_prob_pct", .num 0), ("precip_type", .null), ("condition", .null)]

/-- Witness record: precipitation 1 inch. -/
def c6h : Json := Json.obj (jsonObjOf [("precipitation", Json.obj (jsonObjOf [("qpf",
  Json.obj (jsonObjOf [("quantity", Json.num 1), ("unit", Json.str "INCHES")]))]))])

/-- Witness row: `row_from_hour` of `c6h`. -/
def c6row : List (String × Json) :=
  [("interval_start_utc", .null), ("display_local", .null), ("utc_offset_min", .null),
   ("temp_c", .null), ("feels_like_c", .null), ("rel_humidity_pct", .null),
   ("wind_speed_ms", .null), ("wind_dir_deg", .null), ("precip_mm", .num (1 * 25.4)),
   ("precip_prob_pct", .num 0), ("precip_type", .null), ("condition", .null)]


/-- Witness display-datetime object: year, month, day only. -/
def c9dt : Json := Json.obj (jsonObjOf [("year", Json.num 2024), ("month", Json.num 1), ("day", Json.num 2)])

/-- Containers the history normalizer tolerates: falsy values (replaced
by the empty dict or skipped) and dicts. -/
def contOk (j : Json) : Bool := !j.truthy || j.isObj

/-- Total lookup: the stored value, or null when absent or when the
receiver is not an object. -/
def jget (j : Json) (k : String) : Json := (j.lookup k).getD .null

/-- Total version of the `fetch_hourly` sort key, for stating
sortedness of an already-validated output. -/
def startKeyD (h : Json) : String :=
  match startKey h with
  | .ok s => s
  | .error _ => ""

/-- Witness record with one start timestamp. -/
def hT : Json := Json.obj (jsonObjOf [("interval", Json.obj (jsonObjOf
  [("startTime", Json.str "2026-01-01T00:00:00Z")]))])

/-- Witness provider responses: seven full pages of 24 records, each
carrying a continuation token. -/
def c5pages : List Page := List.replicate 7 (List.replicate 24 hT, true)

/-- Row carries both key columns (true of every `flatten` output and of
every `csv.DictReader` row). -/
def hasKeys (r : Drow) : Bool :=
  (r.find? (fun p => p.1 == "city")).isSome &&
  (r.find? (fun p => p.1 == "interval_start_utc")).isSome

def Json.isStr : Json → Bool
  | .str _ => true
  | _ => false

/-- Both components of the dedup key are strings (true whenever the
fetched record carried a startTime, and vacuously for absent fields,
whose default is the empty string). -/
def rowKeyStr (r : Drow) : Bool := (rowKey r).1.isStr && (rowKey r).2.isStr

/-- Witness row with duplicate-prone key. -/
def c2row : Drow := [("city", .str "a"), ("interval_start_utc", .str "t")]

/-- Projection of `c2row` onto the canonical columns. -/
def c2projRow : Drow :=
  [("city", .str "a"), ("interval_start_utc", .str "t"), ("interval_end_utc", .null),
   ("local_time", .null), ("temperature_c", .null), ("relative_humidity_pct", .null),
   ("cloud_cover_pct", .null), ("precip_mm_per_hr", .null), ("precip_probability_pct", .null),
   ("precip_type", .null), ("wind_speed_m_s", .null), ("wind_dir_deg", .null),
   ("is_daytime", .null), ("condition_type", .null), ("condition_text", .null)]

/-- Values tolerated where the history normalizer applies `float(...)`
after its `None` short-circuit: `None`, numbers and booleans. -/
def floatable : Json → Bool
  | .null => true
  | .num _ => true
  | .bool _ => true
  | _ => false

/-- Shapes on which the history normalizer `flatten` cannot raise:
the record is a dict, `interval` (if present) is a dict, a truthy
start time is a string the external converter accepts, each container
read with `(h.get(...) or {})` is falsy or a dict, the same one level
down for `description`, `probability` and `direction`, and the `qpf`
and `speed` leaves are dicts with a floatable value when truthy. -/
def HistShapeOk (tloc : String → Except String String) (h : Json) : Bool :=
  h.isObj &&
  (match h.lookup "interval" with
   | none => true
   | some v => v.isObj) &&
  (!(jget ((h.lookup "interval").getD (.obj .nil)) "startTime").truthy ||
   (match jget ((h.lookup "interval").getD (.obj .nil)) "startTime" with
    | .str s => (to_local_iso tloc s).isOk
    | _ => false)) &&
  contOk (jget h "precipitation") &&
  contOk (jget h "wind") &&
  contOk (jget h "temperature") &&
  contOk (jget h "weatherCondition") &&
  contOk (jget (orEmpty (jget h "weatherCondition")) "description") &&
  (!(jget (orEmpty (jget h "precipitation")) "qpf").truthy ||
   ((jget (orEmpty (jget h "precipitation")) "qpf").isObj &&
    floatable (jget (jget (orEmpty (jget h "precipitation")) "qpf") "quantity"))) &&
  contOk (jget (orEmpty (jget h "precipitation")) "probability") &&
  (!(jget (orEmpty (jget h "wind")) "speed").truthy ||
   ((jget (orEmpty (jget h "wind")) "speed").isObj &&
    floatable (jget (jget (orEmpty (jget h "wind")) "speed") "value"))) &&
  contOk (jget (orEmpty (jget h "wind")) "direction")

theorem except_bind_ok {α β γ : Type} {x : Except γ α} {f : α → Except γ β} {b : β} :
    (x >>= f) = .ok b ↔ ∃ a, x = .ok a ∧ f a = .ok b := by
  cases x <;> simp [Bind.bind, Except.bind]

/-- Structure of a successful `row_from_hour`: names for the three
effectful field computations and the literal shape of the row. -/
theorem row_from_hour_fields {zdb : String → Option (Dt6 → ℚ)} {h : Json}
    {r : List (String × Json)} (hok : row_from_hour zdb h = .ok r) :
    ∃ ddt dio wms precip_mm, pyGet h "displayDateTime" = .ok ddt ∧
      parse_display_datetime zdb ddt = .ok dio ∧
      forecastWindMs h = .ok wms ∧ forecastPrecipMm h = .ok precip_mm ∧
      r = [("interval_start_utc", g h ["interval", "startTime"] .null),
        ("display_local", match dio.1 with | none => Json.null | some s => Json.str s),
        ("utc_offset_min", match dio.2 with | none => Json.null | some i => Json.num i),
        ("temp_c", g h ["temperature", "value"] .null),
        ("feels_like_c", g h ["feelsLikeTemperature", "value"] .null),
        ("rel_humidity_pct", g h ["relativeHumidity"] .null),
        ("wind_speed_ms", wms),
        ("wind_dir_deg", g h ["wind", "direction", "degrees"] .null),
        ("precip_mm", precip_mm),
        ("precip_prob_pct", g h ["precipitation", "probability", "percent"] (.num 0)),
        ("precip_type", g h ["precipitation", "probability", "type"] .null),
        ("condition", pyOr (g h ["weatherCondition", "description", "text"] .null)
          (g h ["weatherCondition", "type"] .null))] := by
  rw [row_from_hour] at hok
  simp only [except_bind_ok] at hok
  obtain ⟨ddt, hddt, dio, hdio, wms, hw, pm, hp, hok⟩ := hok
  simp only [pure, Except.pure, Except.ok.injEq] at hok
  exact ⟨ddt, dio, wms, pm, hddt, hdio, hw, hp, hok.symm⟩

theorem forecastWindMs_num {h : Json} {v : ℚ}
    (hv : g h ["wind", "speed", "value"] .null = .num v) :
    forecastWindMs h = .ok
      (if g h ["wind", "speed", "unit"] .null = .str "KILOMETERS_PER_HOUR" then .num (v / 3.6)
       else if g h ["wind", "speed", "unit"] .null = .str "MILES_PER_HOUR" then .num (v * 0.44704)
       else .num v) := by
  simp only [forecastWindMs, hv]
  split_ifs with h1 h2 h3 <;>
    simp_all [pyFloat, bind, Except.bind, pure, Except.pure]

theorem forecastPrecipMm_eval {h : Json} :
    (g h ["precipitation", "qpf", "quantity"] .null = .null →
      forecastPrecipMm h = .ok (.num 0)) ∧
    (∀ v : ℚ, g h ["precipitation", "qpf", "quantity"] .null = .num v →
      forecastPrecipMm h = .ok
        (if g h ["precipitation", "qpf", "unit"] .null = .str "INCHES"
         then .num (v * 25.4) else .num v)) := by
  constructor
  · intro hq; simp [forecastPrecipMm, hq]
  · intro v hq
    simp only [forecastPrecipMm, hq]
    split_ifs with h1 h2 <;>
      simp_all [pyFloat, bind, Except.bind, pure, Except.pure]


/-- Structure of a successful `flatten`: names for every intermediate
lookup and the literal shape of the produced row. -/
theorem flatten_fields {tloc : String → Except String String} {city : String} {h : Json}
    {r : List (String × Json)} (hok : flatten tloc city h = .ok r) :
    ∃ interval start_utc end_utc pv wv tv cv dv cond_desc local_time temp_c rh cc qpfv
      precip_mm probv prob probv2 ptype wspd dirv wdir dayt ctype,
      pyGetD h "interval" (.obj .nil) = .ok interval ∧
      pyGet interval "startTime" = .ok start_utc ∧
      pyGet interval "endTime" = .ok end_utc ∧
      pyGet h "precipitation" = .ok pv ∧
      pyGet h "wind" = .ok wv ∧
      pyGet h "temperature" = .ok tv ∧
      pyGet h "weatherCondition" = .ok cv ∧
      pyGet (orEmpty cv) "description" = .ok dv ∧
      pyGet (orEmpty dv) "text" = .ok cond_desc ∧
      localTimeOf tloc start_utc = .ok local_time ∧
      pyGet (orEmpty tv) "degrees" = .ok temp_c ∧
      pyGet h "relativeHumidity" = .ok rh ∧
      pyGet h "cloudCover" = .ok cc ∧
      pyGet (orEmpty pv) "qpf" = .ok qpfv ∧
      mm_from_qpf qpfv = .ok precip_mm ∧
      pyGet (orEmpty pv) "probability" = .ok probv ∧
      pyGet (orEmpty probv) "percent" = .ok prob ∧
      pyGet (orEmpty pv) "probability" = .ok probv2 ∧
      pyGet (orEmpty probv2) "type" = .ok ptype ∧
      wind_ms (orEmpty wv) = .ok wspd ∧
      pyGet (orEmpty wv) "direction" = .ok dirv ∧
      pyGet (orEmpty dirv) "degrees" = .ok wdir ∧
      pyGet h "isDaytime" = .ok dayt ∧
      pyGet (orEmpty cv) "type" = .ok ctype ∧
      r = [("city", .str city), ("interval_start_utc", start_utc),
        ("interval_end_utc", end_utc), ("local_time", local_time),
        ("temperature_c", temp_c), ("relative_humidity_pct", rh),
        ("cloud_cover_pct", cc), ("precip_mm_per_hr", precip_mm),
        ("precip_probability_pct", prob), ("precip_type", ptype),
        ("wind_speed_m_s", wspd), ("wind_dir_deg", wdir),
        ("is_daytime", dayt), ("condition_type", ctype),
        ("condition_text", cond_desc)] := by
  rw [flatten] at hok
  simp only [except_bind_ok] at hok
  obtain ⟨interval, h1, start_utc, h2, end_utc, h3, pv, h4, wv, h5, tv, h6, cv, h7,
    dv, h8, cond_desc, h9, local_time, h10, temp_c, h11, rh, h12, cc, h13, qpfv, h14,
    precip_mm, h15, probv, h16, prob, h17, probv2, h18, ptype, h19, wspd, h20,
    dirv, h21, wdir, h22, dayt, h23, ctype, h24, hr⟩ := hok
  simp only [pure, Except.pure, Except.ok.injEq] at hr
  exact ⟨interval, start_utc, end_utc, pv, wv, tv, cv, dv, cond_desc, local_time,
    temp_c, rh, cc, qpfv, precip_mm, probv, prob, probv2, ptype, wspd, dirv, wdir,
    dayt, ctype, h1, h2, h3, h4, h5, h6, h7, h8, h9, h10, h11, h12, h13, h14, h15,
    h16, h17, h18, h19, h20, h21, h22, h23, h24, hr.symm⟩

-- ───────── helper lemmas for path reasoning ─────────

theorem pyGet_ok {h x : Json} {k : String} (hh : pyGet h k = .ok x) :
    ∃ kvs, h = .obj kvs ∧ (kvs.find? k).getD .null = x := by
  cases h <;> simp [pyGet] at hh
  case obj kvs => exact ⟨kvs, rfl, hh⟩

theorem g_step {kvs : JsonObj} {k : String} {ks : List String} {d0 : Json} :
    g (.obj kvs) (k :: ks) d0 = g ((kvs.find? k).getD .null) ks d0 := rfl

theorem g_nil_null {x : Json} (hn : g x [] .null = .null) : x = .null := by
  simp only [g] at hn
  by_cases hx : x = .null
  · exact hx
  · rw [if_neg hx] at hn; exact hn

theorem g_default_of_null {x : Json} {ks : List String} (d0 : Json)
    (hn : g x ks .null = .null) : g x ks d0 = d0 := by
  induction ks generalizing x with
  | nil => rw [g, if_pos (g_nil_null hn)]
  | cons k ks ih =>
    cases x with
    | obj kvs => rw [g_step] at hn ⊢; exact ih hn
    | null => rfl
    | bool b => rfl
    | num q => rfl
    | str s => rfl

theorem pyGet_orEmpty_falsy {j xv : Json} {k : String} (hj : ¬ j.truthy = true)
    (hx : pyGet (orEmpty j) k = .ok xv) : xv = .null := by
  rw [orEmpty, if_neg hj] at hx
  simp [pyGet, JsonObj.find?] at hx
  exact hx.symm

theorem mm_from_qpf_of_absent {qpfv pm : Json} (hmm : mm_from_qpf qpfv = .ok pm)
    (habs : g qpfv ["quantity"] .null = .null) : pm = .null := by
  by_cases ht : qpfv.truthy
  · cases qpfv with
    | obj kvs =>
      rw [g_step] at habs
      have hqn := g_nil_null habs
      rw [mm_from_qpf] at hmm
      simp only [ht, Bool.not_true, Bool.false_eq_true, if_false] at hmm
      simp [pyGet, hqn, bind, Except.bind, pure, Except.pure] at hmm
      exact hmm.symm
    | null => simp [Json.truthy] at ht
    | bool b => simp [mm_from_qpf, ht, pyGet, bind, Except.bind, pure, Except.pure] at hmm
    | num q => simp [mm_from_qpf, ht, pyGet, bind, Except.bind, pure, Except.pure] at hmm
    | str s => simp [mm_from_qpf, ht, pyGet, bind, Except.bind, pure, Except.pure] at hmm
  · rw [mm_from_qpf] at hmm
    simp only [ht, Bool.not_false] at hmm
    simp [pure, Except.pure] at hmm
    exact hmm.symm

theorem chain2_null {pv xv res : Json} {k2 k3 : String}
    (hx : pyGet (orEmpty pv) k2 = .ok xv)
    (hres : pyGet (orEmpty xv) k3 = .ok res)
    (habs : g pv [k2, k3] .null = .null) : res = .null := by
  by_cases hpt : pv.truthy
  · rw [orEmpty, if_pos hpt] at hx
    obtain ⟨kvs, hpv, hxv⟩ := pyGet_ok hx
    subst hpv
    rw [g_step, hxv] at habs
    by_cases hxt : xv.truthy
    · rw [orEmpty, if_pos hxt] at hres
      obtain ⟨kvs2, hx2, hres2⟩ := pyGet_ok hres
      subst hx2
      rw [g_step, hres2] at habs
      exact g_nil_null habs
    · exact pyGet_orEmpty_falsy hxt hres
  · have hxn := pyGet_orEmpty_falsy hpt hx
    subst hxn
    exact pyGet_orEmpty_falsy (by simp [Json.truthy]) hres

theorem qpf_chain_null {pv qpfv pm : Json}
    (hq : pyGet (orEmpty pv) "qpf" = .ok qpfv)
    (hmm : mm_from_qpf qpfv = .ok pm)
    (habs : g pv ["qpf", "quantity"] .null = .null) : pm = .null := by
  by_cases hpt : pv.truthy
  · rw [orEmpty, if_pos hpt] at hq
    obtain ⟨kvs, hpv, hqv⟩ := pyGet_ok hq
    subst hpv
    rw [g_step, hqv] at habs
    exact mm_from_qpf_of_absent hmm habs
  · have hq0 := pyGet_orEmpty_falsy hpt hq
    subst hq0
    simp [mm_from_qpf, Json.truthy, pure, Except.pure] at hmm
    exact hmm.symm

-- ───────── C3 ─────────

/-- Claim C3 is false as stated: in the history variant an unknown wind-speed unit is
not passed through unconverted — `wind_ms` treats 36 `METERS_PER_SECOND` as km/h and
produces 10 m/s. -/
theorem claim_C3_counterexample :
    wind_ms (Json.obj (jsonObjOf [("speed", Json.obj (jsonObjOf
      [("value", Json.num 36), ("unit", Json.str "METERS_PER_SECOND")]))])) =
      .ok (.num 10) ∧ Json.num 10 ≠ Json.num 36 := by
  constructor
  · simp [wind_ms, pyGet, jsonObjOf, Json.truthy, JsonObj.find?, JsonObj.isNil, pyFloat,
      round2, roundHalfEven, bind, Except.bind, pure, Except.pure]
    norm_num [Int.fract]
  · decide

/-- Claim C3 (amended): wind-speed normalization.  Forecast variant: a present numeric
value is divided by 3.6 for `KILOMETERS_PER_HOUR`, multiplied by 0.44704 for
`MILES_PER_HOUR`, and passed through for any other unit.  History variant: any unit
other than `MILES_PER_HOUR` is treated as km/h, and the result is rounded to two
decimals. -/
theorem claim_C3 :
    (∀ (zdb : String → Option (Dt6 → ℚ)) (h : Json) (r : List (String × Json)) (v : ℚ),
      row_from_hour zdb h = .ok r →
      g h ["wind", "speed", "value"] .null = .num v →
      dget r "wind_speed_ms" .null =
        (if g h ["wind", "speed", "unit"] .null = .str "KILOMETERS_PER_HOUR"
         then .num (v / 3.6)
         else if g h ["wind", "speed", "unit"] .null = .str "MILES_PER_HOUR"
         then .num (v * 0.44704)
         else .num v)) ∧
    (∀ (v : ℚ) (u : Json),
      wind_ms (Json.obj (jsonObjOf [("speed", Json.obj (jsonObjOf
        [("value", Json.num v), ("unit", u)]))])) =
        .ok (.num (round2 (if u = .str "MILES_PER_HOUR" then v * 0.44704 else v / 3.6)))) := by
  constructor
  · intro zdb h r v hok hv
    obtain ⟨ddt, dio, wms, pm, hddt, hdio, hw, hp, hr⟩ := row_from_hour_fields hok
    rw [forecastWindMs_num hv] at hw
    simp only [Except.ok.injEq] at hw
    subst hr
    simp only [dget, List.find?]
    simp
    exact hw.symm
  · intro v u
    simp [wind_ms, pyGet, jsonObjOf, Json.truthy, JsonObj.find?, JsonObj.isNil, pyFloat,
      bind, Except.bind, pure, Except.pure]

/-- Claim C3 witness: both conjuncts instantiated — 36 km/h in a forecast record, and
10 mph through the history converter. -/
theorem claim_C3_witness :
    dget c3row "wind_speed_ms" .null =
      (if g c3h ["wind", "speed", "unit"] .null = .str "KILOMETERS_PER_HOUR"
       then Json.num (36 / 3.6)
       else if g c3h ["wind", "speed", "unit"] .null = .str "MILES_PER_HOUR"
       then Json.num (36 * 0.44704)
       else Json.num 36) ∧
    wind_ms (Json.obj (jsonObjOf [("speed", Json.obj (jsonObjOf
      [("value", Json.num 10), ("unit", Json.str "MILES_PER_HOUR")]))])) =
      .ok (.num (round2 (if Json.str "MILES_PER_HOUR" = Json.str "MILES_PER_HOUR"
        then 10 * 0.44704 else 10 / 3.6))) :=
  ⟨claim_C3.1 zdbEmpty c3h c3row 36 (by rfl) (by rfl),
   claim_C3.2 10 (.str "MILES_PER_HOUR")⟩

-- ───────── C6 ─────────

/-- Claim C6 is false as stated: the history variant rounds, so quantity 0.001 with
unit `MILLIMETERS` becomes 0.0, not the value passed through unconverted. -/
theorem claim_C6_counterexample :
    mm_from_qpf (Json.obj (jsonObjOf
      [("quantity", Json.num (1/1000)), ("unit", Json.str "MILLIMETERS")])) =
      .ok (.num 0) ∧ (1/1000 : ℚ) ≠ 0 := by
  constructor
  · simp [mm_from_qpf, pyGet, jsonObjOf, Json.truthy, JsonObj.find?, JsonObj.isNil, pyFloat,
      round2, roundHalfEven, bind, Except.bind, pure, Except.pure]
    norm_num [Int.fract]
  · norm_num

/-- Claim C6 (amended): precipitation-quantity normalization.  Forecast variant:
`INCHES` multiplies by 25.4, any other unit passes the value through.  History
variant: same conversion factor but the result is rounded to two decimals. -/
theorem claim_C6 :
    (∀ (zdb : String → Option (Dt6 → ℚ)) (h : Json) (r : List (String × Json)) (v : ℚ),
      row_from_hour zdb h = .ok r →
      g h ["precipitation", "qpf", "quantity"] .null = .num v →
      dget r "precip_mm" .null =
        (if g h ["precipitation", "qpf", "unit"] .null = .str "INCHES"
         then .num (v * 25.4) else .num v)) ∧
    (∀ (v : ℚ) (u : Json),
      mm_from_qpf (Json.obj (jsonObjOf [("quantity", Json.num v), ("unit", u)])) =
        .ok (.num (round2 (v * (if u = .str "INCHES" then 25.4 else 1))))) := by
  constructor
  · intro zdb h r v hok hv
    obtain ⟨ddt, dio, wms, pm, hddt, hdio, hw, hp, hr⟩ := row_from_hour_fields hok
    rw [forecastPrecipMm_eval.2 v hv] at hp
    simp only [Except.ok.injEq] at hp
    subst hr
    simp only [dget, List.find?]
    simp
    exact hp.symm
  · intro v u
    simp [mm_from_qpf, pyGet, jsonObjOf, Json.truthy, JsonObj.find?, JsonObj.isNil, pyFloat,
      bind, Except.bind, pure, Except.pure]

/-- Claim C6 witness: 1 inch in a forecast record converts to 25.4 mm, and 5
`MILLIMETERS` stays 5.0 through the history converter. -/
theorem claim_C6_witness :
    dget c6row "precip_mm" .null =
      (if g c6h ["precipitation", "qpf", "unit"] .null = .str "INCHES"
       then Json.num (1 * 25.4) else Json.num 1) ∧
    mm_from_qpf (Json.obj (jsonObjOf [("quantity", Json.num 5), ("unit", Json.str "MILLIMETERS")])) =
      .ok (.num (round2 (5 * (if Json.str "MILLIMETERS" = Json.str "INCHES" then 25.4 else 1)))) :=
  ⟨claim_C6.1 zdbEmpty c6h c6row 1 (by rfl) (by rfl),
   claim_C6.2 5 (.str "MILLIMETERS")⟩

-- ───────── C4 ─────────

/-- Claim C4: when the precipitation quantity field is absent, the normalized value is
the canonical 0.0 in the forecast variant but `None`/absent in the history variant. -/
theorem claim_C4 :
    (∀ (zdb : String → Option (Dt6 → ℚ)) (h : Json) (r : List (String × Json)),
      row_from_hour zdb h = .ok r →
      g h ["precipitation", "qpf", "quantity"] .null = .null →
      dget r "precip_mm" .null = .num 0) ∧
    (∀ (tloc : String → Except String String) (city : String) (h : Json)
        (r : List (String × Json)),
      flatten tloc city h = .ok r →
      g h ["precipitation", "qpf", "quantity"] .null = .null →
      dget r "precip_mm_per_hr" .null = .null) := by
  constructor
  · intro zdb h r hok habs
    obtain ⟨ddt, dio, wms, pm, hddt, hdio, hw, hp, hr⟩ := row_from_hour_fields hok
    rw [forecastPrecipMm_eval.1 habs] at hp
    simp only [Except.ok.injEq] at hp
    subst hr
    simp only [dget, List.find?]
    simp
    exact hp.symm
  · intro tloc city h r hok habs
    obtain ⟨interval, start_utc, end_utc, pv, wv, tv, cv, dv, cond_desc, local_time,
      temp_c, rh, cc, qpfv, precip_mm, probv, prob, probv2, ptype, wspd, dirv, wdir,
      dayt, ctype, h1, h2, h3, h4, h5, h6, h7, h8, h9, h10, h11, h12, h13, h14, h15,
      h16, h17, h18, h19, h20, h21, h22, h23, h24, hr⟩ := flatten_fields hok
    obtain ⟨kvs, hh, hpv⟩ := pyGet_ok h4
    subst hh
    rw [g_step, hpv] at habs
    have hnull := qpf_chain_null h14 h15 habs
    subst hr
    simp only [dget, List.find?]
    simp
    exact hnull

/-- Claim C4 witness: the empty record through both normalizers. -/
theorem claim_C4_witness :
    dget rowEmpty "precip_mm" .null = .num 0 ∧
    dget histRowEmpty "precip_mm_per_hr" .null = .null :=
  ⟨claim_C4.1 zdbEmpty hEmpty rowEmpty (by rfl) (by rfl),
   claim_C4.2 tlocId "tbilisi" hEmpty histRowEmpty (by rfl) (by rfl)⟩

-- ───────── C7 ─────────

/-- Claim C7 is false as stated: the history `flatten` of a record without a
precipitation probability leaves the field `None`, which is not 0. -/
theorem claim_C7_counterexample :
    flatten tlocId "tbilisi" hEmpty = .ok histRowEmpty ∧
    dget histRowEmpty "precip_probability_pct" .null = .null ∧
    Json.null ≠ Json.num 0 := by
  refine ⟨by rfl, by rfl, by decide⟩

/-- Claim C7 (amended): an absent precipitation probability defaults to 0 in the
forecast variant but stays `None`/absent in the history variant. -/
theorem claim_C7 :
    (∀ (zdb : String → Option (Dt6 → ℚ)) (h : Json) (r : List (String × Json)),
      row_from_hour zdb h = .ok r →
      g h ["precipitation", "probability", "percent"] .null = .null →
      dget r "precip_prob_pct" .null = .num 0) ∧
    (∀ (tloc : String → Except String String) (city : String) (h : Json)
        (r : List (String × Json)),
      flatten tloc city h = .ok r →
      g h ["precipitation", "probability", "percent"] .null = .null →
      dget r "precip_probability_pct" .null = .null) := by
  constructor
  · intro zdb h r hok habs
    obtain ⟨ddt, dio, wms, pm, hddt, hdio, hw, hp, hr⟩ := row_from_hour_fields hok
    subst hr
    simp only [dget, List.find?]
    simp
    exact g_default_of_null (.num 0) habs
  · intro tloc city h r hok habs
    obtain ⟨interval, start_utc, end_utc, pv, wv, tv, cv, dv, cond_desc, local_time,
      temp_c, rh, cc, qpfv, precip_mm, probv, prob, probv2, ptype, wspd, dirv, wdir,
      dayt, ctype, h1, h2, h3, h4, h5, h6, h7, h8, h9, h10, h11, h12, h13, h14, h15,
      h16, h17, h18, h19, h20, h21, h22, h23, h24, hr⟩ := flatten_fields hok
    obtain ⟨kvs, hh, hpv⟩ := pyGet_ok h4
    subst hh
    rw [g_step, hpv] at habs
    have hnull := chain2_null h16 h17 habs
    subst hr
    simp only [dget, List.find?]
    simp
    exact hnull

/-- Claim C7 witness: the empty record through both normalizers. -/
theorem claim_C7_witness :
    dget rowEmpty "precip_prob_pct" .null = .num 0 ∧
    dget histRowEmpty "precip_probability_pct" .null = .null :=
  ⟨claim_C7.1 zdbEmpty hEmpty rowEmpty (by rfl) (by rfl),
   claim_C7.2 tlocId "tbilisi" hEmpty histRowEmpty (by rfl) (by rfl)⟩


-- ───────── C10 ─────────

/-- Claim C10: a present but unparseable `LOCATIONS_JSON` makes the history pipeline
fall back silently to the default location map (Tbilisi only) instead of failing at
startup. -/
theorem claim_C10 (parse : String → Except String (List (String × ℚ × ℚ)))
    (s e : String) (hs : s ≠ "") (he : parse s = .error e) :
    LOCATIONS parse (some s) = default_locations := by
  simp [LOCATIONS, hs, he]

/-- Claim C10 witness: a parser that rejects the override string. -/
theorem claim_C10_witness :
    LOCATIONS (fun _ => .error "Expecting value") (some "not json !") = default_locations :=
  claim_C10 (fun _ => .error "Expecting value") "not json !" "Expecting value"
    (by decide) (by rfl)

-- ───────── C9 ─────────

theorem pyGet_orEmpty_ok {j : Json} (k : String) (hc : contOk j = true) :
    pyGet (orEmpty j) k = .ok (jget (orEmpty j) k) := by
  by_cases ht : j.truthy
  · rw [orEmpty, if_pos ht]
    cases j with
    | obj kvs => simp [pyGet, jget, Json.lookup]
    | null => simp [Json.truthy] at ht
    | bool b => simp [contOk, ht, Json.isObj] at hc
    | num q => simp [contOk, ht, Json.isObj] at hc
    | str q => simp [contOk, ht, Json.isObj] at hc
  · rw [orEmpty, if_neg ht]
    simp [pyGet, jget, Json.lookup, JsonObj.find?]

theorem orEmpty_obj_of_contOk {j : Json} (hc : contOk j = true) :
    ∃ kvs, orEmpty j = .obj kvs := by
  by_cases ht : j.truthy
  · rw [orEmpty, if_pos ht]
    cases j with
    | obj kvs => exact ⟨kvs, rfl⟩
    | null => simp [Json.truthy] at ht
    | bool b => simp [contOk, ht, Json.isObj] at hc
    | num q => simp [contOk, ht, Json.isObj] at hc
    | str q => simp [contOk, ht, Json.isObj] at hc
  · rw [orEmpty, if_neg ht]
    exact ⟨.nil, rfl⟩

/-- Claim C9 is false as stated: a display object with year, month and day but no
hours/minutes still produces a local timestamp (midnight), because the hour and
minute fields default to 0 rather than counting as missing. -/
theorem claim_C9_counterexample :
    parse_display_datetime zdbEmpty c9dt = .ok (some "2024-01-02T00:00:00", none) ∧
    (some "2024-01-02T00:00:00" : Option String) ≠ none := ⟨by rfl, by simp⟩

/-- Claim C9 (amended): the local display timestamp is absent whenever year, month or
day is missing or null — the offset-in-minutes from a parsed `utcOffset` is still
reported — while missing hours/minutes/seconds default to 0 and yield a midnight
timestamp. -/
theorem claim_C9 :
    (∀ (zdb : String → Option (Dt6 → ℚ)) (kvs : JsonObj),
      (Json.obj kvs).truthy = true →
      ((kvs.find? "year").getD .null = .null ∨ (kvs.find? "month").getD .null = .null ∨
        (kvs.find? "day").getD .null = .null) →
      contOk ((kvs.find? "timeZone").getD .null) = true →
      parse_display_datetime zdb (Json.obj kvs) =
        .ok (none, (utcOffsetBlock ((kvs.find? "utcOffset").getD .null)).2)) ∧
    (∀ (zdb : String → Option (Dt6 → ℚ)) (y m d : Int),
      1 ≤ y → y ≤ 9999 → 1 ≤ m → m ≤ 12 → 1 ≤ d → d ≤ daysInMonth y m →
      parse_display_datetime zdb (Json.obj (jsonObjOf
        [("year", Json.num (y : ℚ)), ("month", Json.num (m : ℚ)), ("day", Json.num (d : ℚ))])) =
        .ok (some (isoDt6 ⟨y, m, d, 0, 0, 0⟩ none), none)) := by
  constructor
  · intro zdb kvs htr habs htz
    obtain ⟨kvs2, h2⟩ := orEmpty_obj_of_contOk htz
    rw [parse_display_datetime]
    simp only [htr, Bool.not_true, Bool.false_eq_true, if_false, pure, Except.pure,
      pyGet, pyGetD, bind, Except.bind, h2]
    have hcond : ((kvs.find? "year").getD Json.null = Json.null ∨
        (kvs.find? "month").getD Json.null = Json.null ∨
        (kvs.find? "day").getD Json.null = Json.null ∨
        (kvs.find? "hours").getD (Json.num 0) = Json.null ∨
        (kvs.find? "minutes").getD (Json.num 0) = Json.null) := by
      rcases habs with h1 | h1 | h1
      · exact Or.inl h1
      · exact Or.inr (Or.inl h1)
      · exact Or.inr (Or.inr (Or.inl h1))
    rw [if_pos hcond]
  · intro zdb y m d hy1 hy2 hm1 hm2 hd1 hd2
    rw [parse_display_datetime]
    simp [jsonObjOf, pyGet, pyGetD, JsonObj.find?, Json.truthy, JsonObj.isNil,
      bind, Except.bind, pure, Except.pure, pyIntArg, Rat.den_intCast, Rat.num_intCast,
      utcOffsetBlock, tzNameBlock, orEmpty, jget, Json.lookup, hy1, hy2, hm1, hm2, hd1, hd2]

-- ───────── C5 ─────────

theorem charsLe_total : ∀ a b, (charsLe a b || charsLe b a) = true := by
  intro a
  induction a with
  | nil => intro b; simp [charsLe]
  | cons x xs ih =>
    intro b
    cases b with
    | nil => simp [charsLe]
    | cons y ys =>
      simp only [charsLe]
      by_cases h1 : x.toNat < y.toNat
      · have h2 : ¬ y.toNat < x.toNat := by omega
        simp [h1, h2]
      · by_cases h2 : y.toNat < x.toNat
        · simp [h1, h2]
        · simp [h1, h2, ih ys]

theorem charsLe_trans : ∀ a b c, charsLe a b = true → charsLe b c = true → charsLe a c = true := by
  intro a
  induction a with
  | nil => intro b c _ _; simp [charsLe]
  | cons x xs ih =>
    intro b c hab hbc
    cases b with
    | nil => simp [charsLe] at hab
    | cons y ys =>
      cases c with
      | nil => simp [charsLe] at hbc
      | cons z zs =>
        simp only [charsLe] at hab hbc ⊢
        by_cases hxy : x.toNat < y.toNat
        · by_cases hyz : y.toNat < z.toNat
          · have : x.toNat < z.toNat := by omega
            simp [this]
          · by_cases hzy : z.toNat < y.toNat
            · simp [hyz, hzy] at hbc
            · have : x.toNat < z.toNat := by omega
              simp [this]
        · by_cases hyx : y.toNat < x.toNat
          · simp [hxy, hyx] at hab
          · by_cases hyz : y.toNat < z.toNat
            · have : x.toNat < z.toNat := by omega
              simp [this]
            · by_cases hzy : z.toNat < y.toNat
              · simp [hyz, hzy] at hbc
              · have h1 : ¬ x.toNat < z.toNat := by omega
                have h2 : ¬ z.toNat < x.toNat := by omega
                rw [if_neg hxy, if_neg hyx] at hab
                rw [if_neg hyz, if_neg hzy] at hbc
                rw [if_neg h1, if_neg h2]
                exact ih ys zs hab hbc

theorem strLe_trans {a b c : String} (h1 : strLe a b = true) (h2 : strLe b c = true) :
    strLe a c = true := charsLe_trans _ _ _ h1 h2

theorem strLe_total (a b : String) : (strLe a b || strLe b a) = true := charsLe_total _ _

theorem keyed_spec {l : List Json} {keyed : List (String × Json)}
    (hm : l.mapM (fun h => do let k ← startKey h; pure (k, h)) = .ok keyed) :
    ∀ p ∈ keyed, startKey p.2 = .ok p.1 := by
  induction l generalizing keyed with
  | nil =>
    simp only [List.mapM_nil, pure, Except.pure, Except.ok.injEq] at hm
    subst hm; simp
  | cons x xs ih =>
    rw [List.mapM_cons] at hm
    simp only [except_bind_ok] at hm
    obtain ⟨y, ⟨k, hk, hy⟩, ys, hys, hm⟩ := hm
    simp only [pure, Except.pure, Except.ok.injEq] at hy hm
    subst hy; subst hm
    intro p hp
    rcases List.mem_cons.mp hp with rfl | hp
    · exact hk
    · exact ih hys p hp

theorem except_ok_bind {α β γ : Type} (a : α) (f : α → Except γ β) :
    (Except.ok a >>= f : Except γ β) = f a := rfl

theorem mapM_keyed_ok {l : List Json} (hl : ∀ h ∈ l, (startKey h).isOk = true) :
    ∃ keyed, l.mapM (fun h => do let k ← startKey h; pure (k, h)) = .ok keyed ∧
      keyed.length = l.length := by
  induction l with
  | nil => exact ⟨[], rfl, rfl⟩
  | cons x xs ih =>
    obtain ⟨keyed, hk, hlen⟩ := ih (fun h hh => hl h (by simp [hh]))
    have hx := hl x (by simp)
    cases hsx : startKey x with
    | error e => rw [hsx] at hx; simp [Except.isOk, Except.toBool] at hx
    | ok k =>
      refine ⟨(k, x) :: keyed, ?_, by simp [hlen]⟩
      rw [List.mapM_cons, hsx]
      simp only [except_ok_bind, pure_bind]
      rw [hk]
      simp only [except_ok_bind]
      rfl

theorem fetchHourlyAux_length (hours : Nat) :
    ∀ (pages : List Page) (acc : List Json),
      (∀ p ∈ pages, p.1 ≠ [] ∧ p.2 = true) →
      min hours (acc.length + (pages.map (fun p => p.1.length)).sum) ≤
        (fetchHourlyAux hours pages acc).length := by
  intro pages
  induction pages with
  | nil => intro acc _; simp [fetchHourlyAux]
  | cons p rest ih =>
    intro acc hp
    obtain ⟨chunk, tok⟩ := p
    obtain ⟨hne, htok⟩ := hp (chunk, tok) (by simp)
    simp only at htok
    subst htok
    rw [fetchHourlyAux]
    have hce : chunk.isEmpty = false := by
      cases chunk with
      | nil => simp at hne
      | cons c cs => rfl
    simp only [Bool.not_true, Bool.false_or, hce, Bool.false_eq_true, if_false]
    by_cases hlen : hours ≤ (acc ++ chunk).length
    · rw [if_pos hlen]
      simp only [List.length_append, List.map_cons, List.sum_cons] at hlen ⊢
      omega
    · rw [if_neg hlen]
      have := ih (acc ++ chunk) (fun q hq => hp q (by simp [hq]))
      simp only [List.length_append, List.map_cons, List.sum_cons] at this ⊢
      omega

theorem fetchHourlyAux_mem (hours : Nat) :
    ∀ (pages : List Page) (acc : List Json) (x : Json),
      x ∈ fetchHourlyAux hours pages acc → x ∈ acc ∨ ∃ p ∈ pages, x ∈ p.1 := by
  intro pages
  induction pages with
  | nil => intro acc x hx; exact Or.inl hx
  | cons p rest ih =>
    intro acc x hx
    obtain ⟨chunk, tok⟩ := p
    rw [fetchHourlyAux] at hx
    by_cases hb : (!tok || chunk.isEmpty) = true
    · rw [if_pos hb] at hx
      rcases List.mem_append.mp hx with h | h
      · exact Or.inl h
      · exact Or.inr ⟨(chunk, tok), by simp, h⟩
    · rw [if_neg hb] at hx
      by_cases h2 : hours ≤ (acc ++ chunk).length
      · rw [if_pos h2] at hx
        rcases List.mem_append.mp hx with h | h
        · exact Or.inl h
        · exact Or.inr ⟨(chunk, tok), by simp, h⟩
      · rw [if_neg h2] at hx
        rcases ih (acc ++ chunk) x hx with h | ⟨q, hq, hxq⟩
        · rcases List.mem_append.mp h with h | h
          · exact Or.inl h
          · exact Or.inr ⟨(chunk, tok), by simp, h⟩
        · exact Or.inr ⟨q, by simp [hq], hxq⟩

/-- Claim C5: the paginated fetcher returns at most `target_hour_count` records,
sorted in non-decreasing order of the interval-start string, for every page
sequence; with a target of 168 and seven or more full 24-record token-carrying
pages it returns exactly 168 records. -/
theorem claim_C5 :
    (∀ (hours : Nat) (pages : List Page) (out : List Json),
      fetch_hourly hours pages = .ok out →
      out.length ≤ hours ∧
      out.Pairwise (fun a b => strLe (startKeyD a) (startKeyD b) = true)) ∧
    (∀ pages : List Page, 7 ≤ pages.length →
      (∀ p ∈ pages, p.1.length = 24 ∧ p.2 = true ∧ ∀ x ∈ p.1, (startKey x).isOk = true) →
      ∃ out, fetch_hourly 168 pages = .ok out ∧ out.length = 168) := by
  constructor
  · intro hours pages out hok
    rw [fetch_hourly] at hok
    simp only [except_bind_ok] at hok
    obtain ⟨keyed, hkeyed, hout⟩ := hok
    simp only [pure, Except.pure, Except.ok.injEq] at hout
    subst hout
    refine ⟨List.length_take_le _ _, ?_⟩
    have hsorted := @List.sorted_mergeSort (String × Json)
      (fun a b => strLe a.1 b.1)
      (fun a b c hab hbc => strLe_trans hab hbc)
      (fun a b => strLe_total a.1 b.1) keyed
    have hspec := keyed_spec hkeyed
    have hmem : ∀ p ∈ keyed.mergeSort (fun a b => strLe a.1 b.1), startKey p.2 = .ok p.1 :=
      fun p hp => hspec p ((List.mergeSort_perm keyed _).mem_iff.mp hp)
    have hpair : (keyed.mergeSort (fun a b => strLe a.1 b.1)).Pairwise
        (fun p q => strLe (startKeyD p.2) (startKeyD q.2) = true) := by
      refine hsorted.imp_of_mem ?_
      intro p q hp hq hle
      rw [startKeyD, startKeyD, hmem p hp, hmem q hq]
      exact hle
    have hmap : ((keyed.mergeSort (fun a b => strLe a.1 b.1)).map Prod.snd).Pairwise
        (fun a b => strLe (startKeyD a) (startKeyD b) = true) := by
      rw [List.pairwise_map]
      exact hpair
    exact hmap.sublist (List.take_sublist _ _)
  · intro pages h7 hp
    have hne : ∀ p ∈ pages, p.1 ≠ [] ∧ p.2 = true := by
      intro p hmem
      refine ⟨?_, (hp p hmem).2.1⟩
      intro hcon
      have h24 := (hp p hmem).1
      rw [hcon] at h24
      simp at h24
    have hsum : ∀ l : List Page, (∀ p ∈ l, p.1.length = 24) →
        (l.map (fun p => p.1.length)).sum = 24 * l.length := by
      intro l
      induction l with
      | nil => simp
      | cons q qs ih =>
        intro hq
        simp only [List.map_cons, List.sum_cons, List.length_cons]
        rw [hq q (by simp), ih (fun r hr => hq r (by simp [hr]))]
        ring
    have hlen := fetchHourlyAux_length 168 pages [] hne
    rw [hsum pages (fun p hmem => (hp p hmem).1)] at hlen
    have h168 : 168 ≤ (fetchHourlyAux 168 pages []).length := by
      simp only [List.length_nil, Nat.zero_add] at hlen
      have hmin : min 168 (24 * pages.length) = 168 := by omega
      omega
    have hmemok : ∀ x ∈ fetchHourlyAux 168 pages [], (startKey x).isOk = true := by
      intro x hx
      rcases fetchHourlyAux_mem 168 pages [] x hx with hacc | ⟨p, hpmem, hxp⟩
      · simp at hacc
      · exact (hp p hpmem).2.2 x hxp
    obtain ⟨keyed, hkeyed, hklen⟩ := mapM_keyed_ok hmemok
    refine ⟨((keyed.mergeSort (fun a b => strLe a.1 b.1)).map Prod.snd).take 168, ?_, ?_⟩
    · rw [fetch_hourly, hkeyed]
      simp only [except_ok_bind]
      rfl
    · rw [List.length_take, List.length_map, List.length_mergeSort, hklen]
      omega

/-- Claim C5 witness: the empty provider, and seven full pages of 24 records. -/
theorem claim_C5_witness :
    (([] : List Json).length ≤ 3 ∧
      ([] : List Json).Pairwise (fun a b => strLe (startKeyD a) (startKeyD b) = true)) ∧
    ∃ out, fetch_hourly 168 c5pages = .ok out ∧ out.length = 168 :=
  ⟨claim_C5.1 3 [] []
    (by simp [fetch_hourly, fetchHourlyAux, List.mapM.loop, List.mergeSort_nil,
      pure, Except.pure, bind, Except.bind]),
   claim_C5.2 c5pages (by simp [c5pages]) (by
    intro p hp
    have hrep := List.eq_of_mem_replicate hp
    subst hrep
    refine ⟨by simp, rfl, ?_⟩
    intro x hx
    have hx2 := List.eq_of_mem_replicate hx
    subst hx2
    rfl)⟩

/-- Claim C9 witness: a month-only object hits the early return, and a
year/month/day object builds the midnight timestamp. -/
theorem claim_C9_witness :
    parse_display_datetime zdbEmpty (Json.obj (JsonObj.cons "month" (Json.num 5) .nil)) =
      .ok (none, (utcOffsetBlock (((JsonObj.cons "month" (Json.num 5) .nil).find?
        "utcOffset").getD .null)).2) ∧
    parse_display_datetime zdbEmpty (Json.obj (jsonObjOf
      [("year", Json.num ((2024 : Int) : ℚ)), ("month", Json.num ((1 : Int) : ℚ)),
       ("day", Json.num ((2 : Int) : ℚ))])) =
      .ok (some (isoDt6 ⟨2024, 1, 2, 0, 0, 0⟩ none), none) :=
  ⟨claim_C9.1 zdbEmpty (JsonObj.cons "month" (Json.num 5) .nil) (by rfl)
    (Or.inl (by rfl)) (by rfl),
   claim_C9.2 zdbEmpty 2024 1 2 (by decide) (by decide) (by decide) (by decide)
    (by decide) (by decide)⟩

-- ───────── C1 / C2 helper lemmas ─────────

/-- dget is independent of the default when the key is present. -/
theorem dget_of_isSome {r : Drow} {k : String} (hs : (r.find? (fun p => p.1 == k)).isSome)
    (d1 d2 : Json) : dget r k d1 = dget r k d2 := by
  rw [dget, dget]
  cases hf : r.find? (fun p => p.1 == k) with
  | none => rw [hf] at hs; simp at hs
  | some p => simp

/-- Key of a projected row, in terms of null-default lookups. -/
theorem rowKey_projRow (r : Drow) :
    rowKey (projRow r) = (dget r "city" .null, dget r "interval_start_utc" .null) := by
  rfl

/-- Key of a csv-read-back projected row. -/
theorem rowKey_csvRow_projRow (r : Drow) :
    rowKey (csvRow (projRow r)) =
      (.str (csvCell (dget r "city" .null)), .str (csvCell (dget r "interval_start_utc" .null))) := by
  rfl

/-- One key cell survives projection, csv write and read-back when it
is a string under the empty-string default. -/
theorem cell_roundtrip {r : Drow} {k : String}
    (hk : (dget r k (Json.str "")).isStr = true) :
    Json.str (csvCell (dget r k Json.null)) = dget r k (Json.str "") := by
  unfold dget at hk ⊢
  cases hf : r.find? (fun p => p.1 == k) with
  | none => simp [csvCell]
  | some p =>
    rw [hf] at hk
    obtain ⟨k1, v⟩ := p
    simp only [Option.map, Option.getD] at hk ⊢
    cases v with
    | str s => simp [csvCell]
    | null => simp [Json.isStr] at hk
    | bool b => simp [Json.isStr] at hk
    | num q => simp [Json.isStr] at hk
    | obj kvs => simp [Json.isStr] at hk

/-- A string-valued key survives projection, csv write and read-back. -/
theorem key_roundtrip {r : Drow} (hk : rowKeyStr r = true) :
    rowKey (csvRow (projRow r)) = rowKey r := by
  rw [rowKeyStr, Bool.and_eq_true] at hk
  obtain ⟨h1, h2⟩ := hk
  rw [rowKey_csvRow_projRow, rowKey]
  rw [rowKey] at h1 h2
  simp only at h1 h2
  rw [cell_roundtrip h1, cell_roundtrip h2]

theorem hasKeys_key_eq {r : Drow} (hk : hasKeys r = true) :
    (dget r "city" .null, dget r "interval_start_utc" .null) = rowKey r := by
  rw [hasKeys, Bool.and_eq_true] at hk
  rw [rowKey, dget_of_isSome hk.1 Json.null (.str ""), dget_of_isSome hk.2 Json.null (.str "")]

/-- Claim C1 (amended): if every new row's key is already present, no write occurs
(unconditional); a second run with identical fetch results appends zero rows
provided every fetched row's key components are strings. -/
theorem claim_C1 :
    (∀ existing new_rows : List Drow,
      (∀ r ∈ new_rows, rowKey r ∈ existing.map rowKey) →
      mergeStep existing new_rows = none) ∧
    (∀ store new_rows : List Drow,
      (∀ r ∈ new_rows, rowKeyStr r = true) →
      mergeStep (runOnce store new_rows) new_rows = none) := by
  constructor
  · intro ex nw hall
    simp only [mergeStep]
    have hfil : nw.filter (fun r => !(decide (rowKey r ∈ ex.map rowKey))) = [] := by
      rw [List.filter_eq_nil_iff]
      intro r hr
      simp [hall r hr]
    rw [hfil]
    simp
  · intro store nw hstr
    rcases hm : mergeStep store nw with _ | final
    · have hro : runOnce store nw = store := by rw [runOnce, hm]
      rw [hro]
      exact hm
    · have hro : runOnce store nw = final.map csvRow := by rw [runOnce, hm]
      rw [hro]
      simp only [mergeStep] at hm
      by_cases he : (nw.filter (fun r => !(decide (rowKey r ∈ store.map rowKey)))).isEmpty
      · rw [if_pos he] at hm
        simp at hm
      · rw [if_neg he] at hm
        simp only [Option.some.injEq] at hm
        have hall : ∀ r ∈ nw, rowKey r ∈ (final.map csvRow).map rowKey := by
          intro r hr
          have hmem : ∀ m, m ∈ (if store.isEmpty then nw
              else store ++ nw.filter (fun r => !(decide (rowKey r ∈ store.map rowKey)))) →
              rowKeyStr m = true → rowKey r = rowKey m →
              rowKey r ∈ (final.map csvRow).map rowKey := by
            intro m hmmem hmstr hmkey
            rw [← hm]
            rw [List.map_map, List.map_map]
            refine List.mem_map.mpr ⟨m, hmmem, ?_⟩
            rw [Function.comp, Function.comp, key_roundtrip hmstr, hmkey]
          by_cases hseen : rowKey r ∈ store.map rowKey
          · obtain ⟨s, hs, hskey⟩ := List.mem_map.mp hseen
            have hst : ¬ store.isEmpty := by
              cases store with
              | nil => simp at hs
              | cons a l => simp
            refine hmem s ?_ ?_ hskey.symm
            · rw [if_neg hst]
              exact List.mem_append.mpr (Or.inl hs)
            · unfold rowKeyStr
              rw [hskey]
              have hr2 := hstr r hr
              unfold rowKeyStr at hr2
              exact hr2
          · have happ : r ∈ nw.filter (fun r => !(decide (rowKey r ∈ store.map rowKey))) :=
              List.mem_filter.mpr ⟨hr, by simp [hseen]⟩
            refine hmem r ?_ (hstr r hr) rfl
            by_cases hst : store.isEmpty
            · rw [if_pos hst]; exact hr
            · rw [if_neg hst]; exact List.mem_append.mpr (Or.inr happ)
        simp only [mergeStep]
        have hfil : nw.filter
            (fun r => !(decide (rowKey r ∈ ((final.map csvRow).map rowKey)))) = [] := by
          rw [List.filter_eq_nil_iff]
          intro r hr
          have h2 := hall r hr
          rw [List.map_map] at h2
          obtain ⟨x, hx1, hx2⟩ := List.mem_map.mp h2
          simp
          exact ⟨x, hx1, hx2⟩
        rw [hfil]
        simp

/-- Claim C1 is false as stated: a fetched record without a start time yields a row
whose `None` key serializes to an empty CSV cell, so the second run with identical
fetch results appends it again instead of being a no-op. -/
theorem claim_C1_counterexample :
    flatten tlocId "tbilisi" hEmpty = .ok histRowEmpty ∧
    mergeStep (runOnce [] [histRowEmpty]) [histRowEmpty] ≠ none :=
  ⟨by rfl, by decide⟩

/-- Claim C1 witness: a seen row is not rewritten, and a well-keyed row makes the
second run a no-op. -/
theorem claim_C1_witness :
    mergeStep [c2projRow] [c2row] = none ∧
    mergeStep (runOnce [] [c2row]) [c2row] = none :=
  ⟨claim_C1.1 [c2projRow] [c2row] (by decide),
   claim_C1.2 [] [c2row] (by decide)⟩

/-- Claim C2 is false as stated: two new rows with the same unseen key are both
appended, and the written store carries a duplicate key. -/
theorem claim_C2_counterexample :
    mergeStep [] [c2row, c2row] = some [c2projRow, c2projRow] ∧
    ¬ (([c2projRow, c2projRow].map rowKey).Nodup) :=
  ⟨by rfl, by decide⟩

/-- Claim C2 (amended): the merge preserves key uniqueness when the existing store's
keys are unique, the new rows' keys are pairwise distinct, and every row carries
both key columns. -/
theorem claim_C2 (existing new_rows final : List Drow)
    (hex : ∀ r ∈ existing, hasKeys r = true)
    (hnw : ∀ r ∈ new_rows, hasKeys r = true)
    (hexU : (existing.map rowKey).Nodup)
    (hnwU : (new_rows.map rowKey).Nodup)
    (hm : mergeStep existing new_rows = some final) :
    (final.map rowKey).Nodup := by
  simp only [mergeStep] at hm
  by_cases he : (new_rows.filter (fun r => !(decide (rowKey r ∈ existing.map rowKey)))).isEmpty
  · rw [if_pos he] at hm
    simp at hm
  · rw [if_neg he] at hm
    simp only [Option.some.injEq] at hm
    by_cases hst : existing.isEmpty
    · rw [if_pos hst] at hm
      subst hm
      rw [List.map_map]
      have hcongr : new_rows.map (rowKey ∘ projRow) = new_rows.map rowKey :=
        List.map_congr_left (fun m hmm => hasKeys_key_eq (hnw m hmm))
      rw [hcongr]
      exact hnwU
    · rw [if_neg hst] at hm
      subst hm
      rw [List.map_map]
      have hcongr : (existing ++ new_rows.filter
            (fun r => !(decide (rowKey r ∈ existing.map rowKey)))).map (rowKey ∘ projRow) =
          (existing ++ new_rows.filter
            (fun r => !(decide (rowKey r ∈ existing.map rowKey)))).map rowKey := by
        apply List.map_congr_left
        intro m hmm
        rcases List.mem_append.mp hmm with h | h
        · exact hasKeys_key_eq (hex m h)
        · exact hasKeys_key_eq (hnw m (List.mem_filter.mp h).1)
      rw [hcongr, List.map_append, List.nodup_append]
      refine ⟨hexU, ?_, ?_⟩
      · exact List.Nodup.sublist (List.Sublist.map rowKey (List.filter_sublist _)) hnwU
      · intro k hk1 hk2
        obtain ⟨a, ha, hak⟩ := List.mem_map.mp hk2
        have hnotin := (List.mem_filter.mp ha).2
        simp only [Bool.not_eq_true', decide_eq_false_iff_not] at hnotin
        exact hnotin (hak ▸ hk1)

/-- Claim C2 witness: a single fresh row merged into the empty store. -/
theorem claim_C2_witness : ([c2projRow].map rowKey).Nodup :=
  claim_C2 [] [c2row] [c2projRow] (by decide) (by decide) (by decide) (by decide) (by rfl)

-- ───────── C8 ─────────

theorem isOk_bind {α β γ : Type} {x : Except γ α} {f : α → Except γ β}
    (a : α) (hx : x = .ok a) (hf : (f a).isOk = true) : (x >>= f).isOk = true := by
  rw [hx]
  exact hf

theorem mm_from_qpf_isOk {qpf : Json}
    (hq : (!qpf.truthy || (qpf.isObj && floatable (jget qpf "quantity"))) = true) :
    (mm_from_qpf qpf).isOk = true := by
  by_cases ht : qpf.truthy
  · simp only [ht, Bool.not_true, Bool.false_or, Bool.and_eq_true] at hq
    obtain ⟨hobj, hfl⟩ := hq
    cases qpf with
    | obj kvs =>
      rw [mm_from_qpf]
      simp only [ht, Bool.not_true, Bool.false_eq_true, if_false]
      simp only [jget, Json.lookup] at hfl
      cases hqty : (kvs.find? "quantity").getD .null with
      | null =>
        simp [pyGet, hqty, bind, Except.bind, pure, Except.pure, Except.isOk, Except.toBool]
      | num q =>
        simp [pyGet, hqty, bind, Except.bind, pure, Except.pure, pyFloat,
          Except.isOk, Except.toBool]
      | bool b =>
        simp [pyGet, hqty, bind, Except.bind, pure, Except.pure, pyFloat,
          Except.isOk, Except.toBool]
      | str s => rw [hqty] at hfl; simp [floatable] at hfl
      | obj k2 => rw [hqty] at hfl; simp [floatable] at hfl
    | null => simp [Json.isObj] at hobj
    | bool b => simp [Json.isObj] at hobj
    | num q => simp [Json.isObj] at hobj
    | str s => simp [Json.isObj] at hobj
  · rw [mm_from_qpf]
    simp only [ht, Bool.not_false]
    simp [pure, Except.pure, Except.isOk, Except.toBool]

theorem wind_ms_isOk {w : Json} (hw : contOk w = true)
    (hs : (!(jget (orEmpty w) "speed").truthy ||
      ((jget (orEmpty w) "speed").isObj &&
       floatable (jget (jget (orEmpty w) "speed") "value"))) = true) :
    (wind_ms (orEmpty w)).isOk = true := by
  obtain ⟨kvs, hk⟩ := orEmpty_obj_of_contOk hw
  rw [hk] at hs ⊢
  by_cases ht : (Json.obj kvs).truthy
  · simp only [jget, Json.lookup] at hs
    by_cases hst : ((kvs.find? "speed").getD Json.null).truthy
    · simp only [hst, Bool.not_true, Bool.false_or, Bool.and_eq_true] at hs
      obtain ⟨hobj, hfl⟩ := hs
      cases hsp : (kvs.find? "speed").getD Json.null with
      | obj k2 =>
        rw [hsp] at hfl hst
        simp only [Json.lookup] at hfl
        cases hval : (k2.find? "value").getD Json.null with
        | null =>
          simp [wind_ms, ht, pyGet, hsp, hst, hval, bind, Except.bind, pure, Except.pure,
            Except.isOk, Except.toBool]
        | num q =>
          simp [wind_ms, ht, pyGet, hsp, hst, hval, pyFloat, bind, Except.bind, pure,
            Except.pure, Except.isOk, Except.toBool]
        | bool b =>
          simp [wind_ms, ht, pyGet, hsp, hst, hval, pyFloat, bind, Except.bind, pure,
            Except.pure, Except.isOk, Except.toBool]
        | str s => rw [hval] at hfl; simp [floatable] at hfl
        | obj k3 => rw [hval] at hfl; simp [floatable] at hfl
      | null => rw [hsp] at hst; simp [Json.truthy] at hst
      | bool b => rw [hsp] at hobj; simp [Json.isObj] at hobj
      | num q => rw [hsp] at hobj; simp [Json.isObj] at hobj
      | str s => rw [hsp] at hobj; simp [Json.isObj] at hobj
    · simp [wind_ms, ht, pyGet, hst, bind, Except.bind, pure, Except.pure,
        Except.isOk, Except.toBool]
  · simp [wind_ms, ht, pure, Except.pure, Except.isOk, Except.toBool]

theorem localTimeOf_isOk {tloc : String → Except String String} {st : Json}
    (hst : (!st.truthy || (match st with
      | .str s => (to_local_iso tloc s).isOk
      | _ => false)) = true) :
    (localTimeOf tloc st).isOk = true := by
  cases st with
  | str s =>
    by_cases hs : s = ""
    · subst hs
      simp [localTimeOf, Json.truthy, pure, Except.pure, Except.isOk, Except.toBool]
    · have ht : (Json.str s).truthy = true := by simp [Json.truthy, hs]
      simp only [ht, Bool.not_true, Bool.false_or] at hst
      cases hc : to_local_iso tloc s with
      | error e => rw [hc] at hst; simp [Except.isOk, Except.toBool] at hst
      | ok l =>
        simp [localTimeOf, ht, hc, bind, Except.bind, pure, Except.pure,
          Except.isOk, Except.toBool]
  | null => simp [localTimeOf, Json.truthy, pure, Except.pure, Except.isOk, Except.toBool]
  | bool b =>
    cases b with
    | false =>
      simp [localTimeOf, Json.truthy, pure, Except.pure, Except.isOk, Except.toBool]
    | true => simp [Json.truthy] at hst
  | num q =>
    by_cases hq : q = 0
    · subst hq
      simp [localTimeOf, Json.truthy, pure, Except.pure, Except.isOk, Except.toBool]
    · simp [Json.truthy, hq] at hst
  | obj kvs =>
    cases kvs with
    | nil =>
      simp [localTimeOf, Json.truthy, JsonObj.isNil, pure, Except.pure,
        Except.isOk, Except.toBool]
    | cons a b c => simp [Json.truthy, JsonObj.isNil] at hst

theorem isOk_bind2 {α β γ : Type} {x : Except γ α} {f : α → Except γ β}
    (hx : x.isOk = true) (hf : ∀ a, (f a).isOk = true) : (x >>= f).isOk = true := by
  cases x with
  | error e => simp [Except.isOk, Except.toBool] at hx
  | ok a => exact hf a

theorem isOk_of_eq_ok {α γ : Type} {x : Except γ α} {a : α} (hx : x = .ok a) :
    x.isOk = true := by
  rw [hx]; rfl

/-- Claim C8 (amended): the history normalizer never raises on any record satisfying
the structural conditions of `HistShapeOk` — each nested level absent, falsy or a
dict, floatable numeric leaves, and a convertible start timestamp. -/
theorem claim_C8 (tloc : String → Except String String) (city : String) (h : Json)
    (hsh : HistShapeOk tloc h = true) : (flatten tloc city h).isOk = true := by
  simp only [HistShapeOk, Bool.and_eq_true] at hsh
  obtain ⟨⟨⟨⟨⟨⟨⟨⟨⟨⟨⟨hobj, hint⟩, hst⟩, hprec⟩, hwind⟩, htemp⟩, hcond⟩, hdesc⟩, hqpf⟩, hprob⟩, hspeed⟩, hdir⟩ := hsh
  cases h with
  | null => simp [Json.isObj] at hobj
  | bool b => simp [Json.isObj] at hobj
  | num q => simp [Json.isObj] at hobj
  | str s => simp [Json.isObj] at hobj
  | obj kvs =>
    simp only [Json.lookup] at hint hst
    rw [flatten]
    refine isOk_bind ((kvs.find? "interval").getD (.obj .nil)) rfl ?_
    have hiv : ∃ ivs, (kvs.find? "interval").getD (.obj .nil) = .obj ivs := by
      cases hfi : kvs.find? "interval" with
      | none => exact ⟨.nil, rfl⟩
      | some v =>
        rw [hfi] at hint
        cases v with
        | obj ivs => exact ⟨ivs, rfl⟩
        | null => simp [Json.isObj] at hint
        | bool b => simp [Json.isObj] at hint
        | num q => simp [Json.isObj] at hint
        | str s => simp [Json.isObj] at hint
    obtain ⟨ivs, hiv⟩ := hiv
    rw [hiv] at hst ⊢
    refine isOk_bind ((ivs.find? "startTime").getD .null) rfl ?_
    refine isOk_bind2 (isOk_of_eq_ok rfl) (fun end_utc => ?_)
    refine isOk_bind ((kvs.find? "precipitation").getD .null) rfl ?_
    refine isOk_bind ((kvs.find? "wind").getD .null) rfl ?_
    refine isOk_bind ((kvs.find? "temperature").getD .null) rfl ?_
    refine isOk_bind ((kvs.find? "weatherCondition").getD .null) rfl ?_
    refine isOk_bind _ (pyGet_orEmpty_ok "description" hcond) ?_
    refine isOk_bind2 (isOk_of_eq_ok (pyGet_orEmpty_ok "text" hdesc)) (fun cond_desc => ?_)
    refine isOk_bind2 (localTimeOf_isOk hst) (fun local_time => ?_)
    refine isOk_bind2 (isOk_of_eq_ok (pyGet_orEmpty_ok "degrees" htemp)) (fun temp_c => ?_)
    refine isOk_bind2 (isOk_of_eq_ok rfl) (fun rh => ?_)
    refine isOk_bind2 (isOk_of_eq_ok rfl) (fun cc => ?_)
    refine isOk_bind _ (pyGet_orEmpty_ok "qpf" hprec) ?_
    refine isOk_bind2 (mm_from_qpf_isOk hqpf) (fun precip_mm => ?_)
    refine isOk_bind _ (pyGet_orEmpty_ok "probability" hprec) ?_
    refine isOk_bind2 (isOk_of_eq_ok (pyGet_orEmpty_ok "percent" hprob)) (fun prob => ?_)
    refine isOk_bind _ (pyGet_orEmpty_ok "probability" hprec) ?_
    refine isOk_bind2 (isOk_of_eq_ok (pyGet_orEmpty_ok "type" hprob)) (fun ptype => ?_)
    refine isOk_bind2 (wind_ms_isOk hwind hspeed) (fun wspd => ?_)
    refine isOk_bind _ (pyGet_orEmpty_ok "direction" hwind) ?_
    refine isOk_bind2 (isOk_of_eq_ok (pyGet_orEmpty_ok "degrees" hdir)) (fun wdir => ?_)
    refine isOk_bind2 (isOk_of_eq_ok rfl) (fun dayt => ?_)
    refine isOk_bind2 (isOk_of_eq_ok (pyGet_orEmpty_ok "type" hcond)) (fun ctype => ?_)
    rfl

/-- Claim C8 is false as stated: the normalizers are not total — `flatten` raises an
`AttributeError` when the record's `interval` field is present but not a dict. -/
theorem claim_C8_counterexample :
    flatten tlocId "tbilisi" (Json.obj (jsonObjOf [("interval", Json.str "boom")])) =
      .error "AttributeError: .get on non-dict" := by rfl

/-- Claim C8 witness: the empty record satisfies the shape conditions and flattens
without error. -/
theorem claim_C8_witness :
    HistShapeOk tlocId hEmpty = true ∧ (flatten tlocId "tbilisi" hEmpty).isOk = true :=
  ⟨by decide, claim_C8 tlocId "tbilisi" hEmpty (by decide)⟩
